import Mathlib

/-!
Verification development for the polonium crate (a Pushover API client).

The Rust sources `src/lib.rs`, `src/attachment.rs` and `po/src/main.rs` are
shallowly embedded below.  Pure data (requests, enums, attachments, multipart
forms) becomes plain Lean structures and inductives; calls into external
libraries (URL parsing, HTTP transport, MIME parsing and inference, JSON
deserialization) are passed in as explicit oracle functions, so that the
control flow of the embedded functions mirrors the Rust statement for
statement.
-/

namespace Polonium

/-- Embeds the Rust enum `HTML` from `lib.rs`: variants `None` and `Enabled`. -/
inductive HTML
| none
| enabled
deriving DecidableEq, Repr, Fintype

/-- Embeds the strum-derived `ToString` for `HTML`: the `#[strum(serialize)]`
attributes give `None ↦ "0"` and `Enabled ↦ "1"`. -/
def HTML.toString : HTML → String
| HTML.none => "0"
| HTML.enabled => "1"

/-- Embeds the Rust enum `Monospace` from `lib.rs`: variants `None` and
`Enabled`. -/
inductive Monospace
| none
| enabled
deriving DecidableEq, Repr, Fintype

/-- Embeds the strum-derived `ToString` for `Monospace`: `None ↦ "0"`,
`Enabled ↦ "1"`. -/
def Monospace.toString : Monospace → String
| Monospace.none => "0"
| Monospace.enabled => "1"

/-- Embeds the Rust enum `Priority` from `lib.rs` (declaration order
`Normal, Lowest, Low, High, Emergency`). -/
inductive Priority
| normal
| lowest
| low
| high
| emergency
deriving DecidableEq, Repr, Fintype

/-- Embeds the strum-derived `ToString` for `Priority` per its
`#[strum(serialize)]` attributes. -/
def Priority.toString : Priority → String
| Priority.normal => "0"
| Priority.lowest => "-2"
| Priority.low => "-1"
| Priority.high => "1"
| Priority.emergency => "2"

/-- Embeds the Rust enum `Sound` from `lib.rs`, in declaration order. -/
inductive Sound
| pushover
| bike
| bugle
| cashRegister
| classical
| cosmic
| falling
| gameLan
| incoming
| intermission
| magic
| mechanical
| pianoBar
| siren
| spaceAlarm
| tugboat
| alien
| climb
| persistent
| echo
| upDown
| vibrate
| none
deriving DecidableEq, Repr, Fintype

/-- The Rust identifier of each `Sound` variant, exactly as written in
`lib.rs`. -/
def Sound.rustName : Sound → String
| Sound.pushover => "Pushover"
| Sound.bike => "Bike"
| Sound.bugle => "Bugle"
| Sound.cashRegister => "CashRegister"
| Sound.classical => "Classical"
| Sound.cosmic => "Cosmic"
| Sound.falling => "Falling"
| Sound.gameLan => "GameLan"
| Sound.incoming => "Incoming"
| Sound.intermission => "Intermission"
| Sound.magic => "Magic"
| Sound.mechanical => "Mechanical"
| Sound.pianoBar => "PianoBar"
| Sound.siren => "Siren"
| Sound.spaceAlarm => "SpaceAlarm"
| Sound.tugboat => "Tugboat"
| Sound.alien => "Alien"
| Sound.climb => "Climb"
| Sound.persistent => "Persistent"
| Sound.echo => "Echo"
| Sound.upDown => "UpDown"
| Sound.vibrate => "Vibrate"
| Sound.none => "None"

/-- Embeds the strum-derived `ToString` for `Sound`: with
`#[strum(serialize_all = "lowercase")]` every variant serializes to the
lowercase of its Rust identifier; the crate's own tests (`test_sound` in
`lib.rs`) assert each of these strings. -/
def Sound.toString : Sound → String
| Sound.pushover => "pushover"
| Sound.bike => "bike"
| Sound.bugle => "bugle"
| Sound.cashRegister => "cashregister"
| Sound.classical => "classical"
| Sound.cosmic => "cosmic"
| Sound.falling => "falling"
| Sound.gameLan => "gamelan"
| Sound.incoming => "incoming"
| Sound.intermission => "intermission"
| Sound.magic => "magic"
| Sound.mechanical => "mechanical"
| Sound.pianoBar => "pianobar"
| Sound.siren => "siren"
| Sound.spaceAlarm => "spacealarm"
| Sound.tugboat => "tugboat"
| Sound.alien => "alien"
| Sound.climb => "climb"
| Sound.persistent => "persistent"
| Sound.echo => "echo"
| Sound.upDown => "updown"
| Sound.vibrate => "vibrate"
| Sound.none => "none"

/-- Embeds the Rust struct `Request` from `lib.rs`.  The Rust `Cow` string
fields become plain `String`; `timestamp : u64` becomes `Nat` (only ever
rendered as decimal text, never arithmetically combined, so no wraparound can
occur). -/
structure Request where
  token : String
  user : String
  message : String
  device : Option String
  title : Option String
  html : Option HTML
  monospace : Option Monospace
  timestamp : Option Nat
  priority : Option Priority
  url : Option String
  url_title : Option String
  sound : Option Sound
deriving DecidableEq, Repr

/-- Embeds the Rust struct `Attachment` from `attachment.rs`: filename, MIME
type, and content bytes (each byte a `Nat` below 256 in practice; the code
never computes with byte values, so plain `Nat` suffices). -/
structure Attachment where
  filename : String
  mime_type : String
  content : List Nat
deriving DecidableEq, Repr

/-- Embeds `Attachment::new` from `attachment.rs`: verbatim field
construction. -/
def Attachment.new (filename mime_type : String) (content : List Nat) : Attachment :=
  { filename := filename, mime_type := mime_type, content := content }

/-- Embeds the Rust struct `Notification` from `lib.rs`: a `Request` plus an
optional attachment.  The Rust field holds a shared reference
`Option<&'a Attachment>`; in the embedding it holds the attachment value. -/
structure Notification where
  request : Request
  attachment : Option Attachment
deriving DecidableEq, Repr

/-- Embeds `Notification::new` from `lib.rs`: the three required fields are
set and, via `..Default::default()`, every optional field and the attachment
start out absent. -/
def Notification.new (token user message : String) : Notification :=
  { request :=
      { token := token
        user := user
        message := message
        device := Option.none
        title := Option.none
        html := Option.none
        monospace := Option.none
        timestamp := Option.none
        priority := Option.none
        url := Option.none
        url_title := Option.none
        sound := Option.none }
    attachment := Option.none }

/-- Embeds `Notification::attach` from `lib.rs`:
`self.attachment = Some(attachment)`.  The Rust method mutates `&mut self`;
the embedding returns the updated notification. -/
def Notification.attach (n : Notification) (a : Attachment) : Notification :=
  { n with attachment := some a }

/-- One part of a reqwest multipart form: either a named text field or a
named file part carrying a filename, a MIME type and content bytes. -/
inductive Part
| text (name value : String)
| file (name filename mime : String) (content : List Nat)
deriving DecidableEq, Repr

/-- True exactly on text parts. -/
def Part.isText : Part → Bool
| Part.text _ _ => true
| Part.file _ _ _ _ => false

/-- True exactly on file parts. -/
def Part.isFile : Part → Bool
| Part.text _ _ => false
| Part.file _ _ _ _ => true

/-- A multipart form is the ordered list of its parts; `Form::new()` is `[]`
and `.text`/`.part` append at the right. -/
abbrev Form := List Part

/-- Embeds `Notification::append_part` from `lib.rs`: generic over
`T: ToString` (made explicit as the `toStr` argument), it appends one text
part when the optional value is present and leaves the form unchanged
otherwise. -/
def appendPart {T : Type} (toStr : T → String) (form : Form) (name : String)
    (value : Option T) : Form :=
  match value with
  | some v => form ++ [Part.text name (toStr v)]
  | Option.none => form

/-- Embeds the text-field portion of `Notification::send` from `lib.rs`: the
three required `.text` calls followed by the nine `append_part` calls, in
source order.  `Cow<str>` fields use the identity `ToString`, `u64` uses
decimal rendering, and the enums use their strum `ToString`. -/
def formTextParts (r : Request) : Form :=
  let form : Form :=
    [Part.text "token" r.token, Part.text "user" r.user, Part.text "message" r.message]
  let form := appendPart id form "device" r.device
  let form := appendPart id form "title" r.title
  let form := appendPart HTML.toString form "html" r.html
  let form := appendPart Monospace.toString form "monospace" r.monospace
  let form := appendPart (fun t : Nat => toString t) form "timestamp" r.timestamp
  let form := appendPart Priority.toString form "priority" r.priority
  let form := appendPart id form "url" r.url
  let form := appendPart id form "url_title" r.url_title
  let form := appendPart Sound.toString form "sound" r.sound
  form

/-- Embeds the Rust enum `AttachmentError` from `attachment.rs`: a wrapped
`reqwest::Error` (its diagnostic modelled as a string), a wrapped
`url::ParseError` (likewise), or the MIME-inference failure `Infer`, which
carries no extra information. -/
inductive AttachmentError
| reqwest (diag : String)
| url (diag : String)
| infer
deriving DecidableEq, Repr

/-- Embeds the Rust enum `NotificationError` from `lib.rs`: a wrapped
`reqwest::Error` (its diagnostic modelled as a string), a wrapped
`serde_json::Error` (likewise), or a wrapped `AttachmentError`. -/
inductive NotificationError
| reqwest (diag : String)
| deserialize (diag : String)
| attachment (e : AttachmentError)
deriving DecidableEq, Repr

/-- Embeds the Rust struct `Response` from `lib.rs`: `status : u8` (a `Nat`
here; the code only reads it), the request token, and an optional error
list. -/
structure Response where
  status : Nat
  request : String
  errors : Option (List String)
deriving DecidableEq, Repr

/-- Embeds the form-building prefix of `Notification::send` from `lib.rs`:
the text fields via `formTextParts`, then, when an attachment is present, the
file part built by `Part::bytes(..).file_name(..).mime_str(..)`.  The
external MIME parser behind `mime_str` is the oracle `mimeStr`, which returns
the parse diagnostic on an invalid MIME string; in that case the `?` operator
converts the resulting `reqwest::Error` through
`From<reqwest::Error> for NotificationError` into the `Reqwest` variant. -/
def buildForm (mimeStr : String → Except String Unit) (n : Notification) :
    Except NotificationError Form :=
  let form := formTextParts n.request
  match n.attachment with
  | some a =>
    match mimeStr a.mime_type with
    | Except.error d => Except.error (NotificationError.reqwest d)
    | Except.ok _ =>
      Except.ok (form ++ [Part.file "attachment" a.filename a.mime_type a.content])
  | Option.none => Except.ok form

/-- Embeds the remainder of `Notification::send` from `lib.rs`.  The HTTP
POST of the form and the reading of the response body as text (two `?`
operators on `reqwest` calls) are the oracle `post`, which either fails with
a `reqwest` diagnostic or yields the body text; `serde_json::from_str` is the
oracle `parse`.  A parse failure is matched explicitly and wrapped as
`NotificationError::Deserialize`. -/
def send (mimeStr : String → Except String Unit)
    (post : Form → Except String String)
    (parse : String → Except String Response)
    (n : Notification) : Except NotificationError Response :=
  match buildForm mimeStr n with
  | Except.error e => Except.error e
  | Except.ok form =>
    match post form with
    | Except.error d => Except.error (NotificationError.reqwest d)
    | Except.ok body =>
      match parse body with
      | Except.ok r => Except.ok r
      | Except.error d => Except.error (NotificationError.deserialize d)

/-- State-passing form of `Notification::send`.  The Rust method takes
`&'a self`: it may only read the notification, and the embedding makes that
explicit by threading the notification value through every branch and
returning it alongside the result. -/
def sendSt (mimeStr : String → Except String Unit)
    (post : Form → Except String String)
    (parse : String → Except String Response)
    (n : Notification) : Except NotificationError Response × Notification :=
  match buildForm mimeStr n with
  | Except.error e => (Except.error e, n)
  | Except.ok form =>
    match post form with
    | Except.error d => (Except.error (NotificationError.reqwest d), n)
    | Except.ok body =>
      match parse body with
      | Except.ok r => (Except.ok r, n)
      | Except.error d => (Except.error (NotificationError.deserialize d), n)

/-- The result of `url::Url::parse` as far as `Attachment::from_url` reads
it: `Url::path_segments` returns `none` for cannot-be-a-base URLs and
otherwise the slash-separated segments (for the `url` crate this iterator is
never empty, but the embedding keeps the general list). -/
structure ParsedUrl where
  pathSegments : Option (List String)
deriving DecidableEq, Repr

/-- The outcome of a successful HTTP GET: the status code and the body
bytes. -/
structure HttpResponse where
  status : Nat
  body : List Nat
deriving DecidableEq, Repr

/-- Embeds the filename expression of `Attachment::from_url`:
`parsed.path_segments().map_or("filename", ...)` with the inner
`last().map_or("filename", ...)`. -/
def fromUrlFilename (segs : Option (List String)) : String :=
  match segs with
  | Option.none => "filename"
  | some l =>
    match l.getLast? with
    | Option.none => "filename"
    | some s => s

/-- Embeds `Attachment::from_url` from `attachment.rs`.  `Url::parse` is the
oracle `parseUrl` (failure becomes the `Url` variant via `?`); the
`reqwest::get` plus `res.bytes()` pair is the oracle `get` (either failure
becomes the `Reqwest` variant via `?`); `infer::get` is the oracle
`inferGet`, whose `None` becomes `AttachmentError::Infer` via `ok_or`.  The
response status is never inspected, exactly as in the source. -/
def from_url (parseUrl : String → Except String ParsedUrl)
    (get : String → Except String HttpResponse)
    (inferGet : List Nat → Option String)
    (url : String) : Except AttachmentError Attachment :=
  match parseUrl url with
  | Except.error d => Except.error (AttachmentError.url d)
  | Except.ok parsed =>
    let filename := fromUrlFilename parsed.pathSegments
    match get url with
    | Except.error d => Except.error (AttachmentError.reqwest d)
    | Except.ok res =>
      let buffer := res.body
      match inferGet buffer with
      | Option.none => Except.error AttachmentError.infer
      | some mime =>
        Except.ok
          { filename := filename, mime_type := mime, content := buffer }

/-- The PNG signature bytes used by the crate's own tests
(`test_attach_url_and_send` in `lib.rs`). -/
def pngSigBytes : List Nat := [0x89, 0x50, 0x4E, 0x47, 0x0D, 0x0A, 0x1A, 0x0A]

/-- Concrete instance of the `infer::get` oracle for use in witnesses: it
recognizes exactly the PNG signature, which the `infer` crate maps to
`image/png` (asserted by the crate's test `test_attach_url_and_send`). -/
def inferPng (bytes : List Nat) : Option String :=
  if pngSigBytes.isPrefixOf bytes then some "image/png" else Option.none

/-- Embeds the Rust struct `Opts` from `po/src/main.rs`: the CLI flags.  The
attachment flag `file : Option<PathBuf>` becomes an optional path string. -/
structure Opts where
  token : String
  user : String
  message : String
  verbose : Bool
  html : Bool
  monospace : Bool
  device : Option String
  title : Option String
  timestamp : Option Nat
  file : Option String
deriving DecidableEq, Repr

/-- Embeds the notification-building portion of `main` from
`po/src/main.rs`, statement for statement: `Notification::new`, the three
`if let` blocks for device/title/timestamp, the nested
`if opts.html { ... if opts.monospace { ... } }` block, and the optional
attachment resolution.  `Attachment::from_path` is not part of the library
sources, so it is the oracle `resolve`; its failure aborts `main` via `?`. -/
def mainBuild (resolve : String → Except AttachmentError Attachment)
    (opts : Opts) : Except AttachmentError Notification :=
  let n := Notification.new opts.token opts.user opts.message
  let n :=
    match opts.device with
    | some d => { n with request := { n.request with device := some d } }
    | Option.none => n
  let n :=
    match opts.title with
    | some t => { n with request := { n.request with title := some t } }
    | Option.none => n
  let n :=
    match opts.timestamp with
    | some t => { n with request := { n.request with timestamp := some t } }
    | Option.none => n
  let n :=
    if opts.html then
      let n := { n with request := { n.request with html := some HTML.enabled } }
      if opts.monospace then
        { n with request := { n.request with monospace := some Monospace.enabled } }
      else n
    else n
  match opts.file with
  | some p =>
    match resolve p with
    | Except.error e => Except.error e
    | Except.ok a => Except.ok (n.attach a)
  | Option.none => Except.ok n

/-- True exactly on the `Attachment` variant of `NotificationError`. -/
def NotificationError.isAttachment : NotificationError → Bool
| NotificationError.attachment _ => true
| _ => false

/-- True when a form-building result is an error of the `Attachment`
variant. -/
def resultIsAttachmentError (r : Except NotificationError Form) : Bool :=
  match r with
  | Except.error e => e.isAttachment
  | Except.ok _ => false

/-- Zero or one text parts for an optional, already wire-encoded value. -/
def optText (name : String) (v : Option String) : Form :=
  match v with
  | some s => [Part.text name s]
  | Option.none => []

/-- Follows the spec's words (the refinement target for the form layout, not
a translation of the source): exactly the three required text fields
`token`, `user`, `message` followed by, for each optional field that is set,
exactly one text field with that field's wire name and wire-encoded value;
unset optional fields contribute nothing. -/
def formTextFieldsSpec (r : Request) : Form :=
  [Part.text "token" r.token, Part.text "user" r.user, Part.text "message" r.message]
    ++ optText "device" r.device
    ++ optText "title" r.title
    ++ optText "html" (r.html.map HTML.toString)
    ++ optText "monospace" (r.monospace.map Monospace.toString)
    ++ optText "timestamp" (r.timestamp.map (fun t => toString t))
    ++ optText "priority" (r.priority.map Priority.toString)
    ++ optText "url" r.url
    ++ optText "url_title" r.url_title
    ++ optText "sound" (r.sound.map Sound.toString)

/-- Concrete MIME-string oracle for witnesses: accepts strings containing a
slash (the type/subtype shape) and reports the offending string as the
diagnostic otherwise — the observable behavior of `mime_str` on the inputs
used below. -/
def mimeStrSlash (s : String) : Except String Unit :=
  if s.data.contains (Char.ofNat 47) then Except.ok () else Except.error s

/-- Concrete MIME-string oracle for witnesses: accepts every string. -/
def mimeOkAll : String → Except String Unit := fun _ => Except.ok ()

/-- Concrete transport oracle for witnesses: every POST succeeds and returns
the given body text. -/
def postOk (body : String) : Form → Except String String := fun _ => Except.ok body

/-- Concrete JSON-parse oracle for witnesses: every body is rejected with the
given diagnostic. -/
def parseFail (d : String) : String → Except String Response :=
  fun _ => Except.error d

/-- Concrete URL-parse oracle for witnesses: every URL parses to the given
result. -/
def constParse (p : ParsedUrl) : String → Except String ParsedUrl :=
  fun _ => Except.ok p

/-- Concrete HTTP GET oracle for witnesses: every GET succeeds with the given
response. -/
def constGet (r : HttpResponse) : String → Except String HttpResponse :=
  fun _ => Except.ok r

/-- Concrete HTTP GET oracle for witnesses: every GET fails at the transport
level with the given diagnostic. -/
def failGet (d : String) : String → Except String HttpResponse :=
  fun _ => Except.error d

/-- Concrete `Attachment::from_path` oracle for the CLI model: resolution
always fails (never consulted on the inputs used below, which pass no file
flag). -/
def resolveFail : String → Except AttachmentError Attachment :=
  fun _ => Except.error AttachmentError.infer

/-- The CLI invocation that passes the monospace toggle but not the HTML
toggle, and no optional flag or file. -/
def optsMonoOnly : Opts :=
  { token := "t", user := "u", message := "m", verbose := false, html := false,
    monospace := true, device := Option.none, title := Option.none,
    timestamp := Option.none, file := Option.none }

theorem appendPart_eq {T : Type} (toStr : T → String) (form : Form)
    (name : String) (v : Option T) :
    appendPart toStr form name v = form ++ optText name (v.map toStr) := by
  cases v <;> simp [appendPart, optText]

theorem formTextParts_eq_spec (r : Request) :
    formTextParts r = formTextFieldsSpec r := by
  simp [formTextParts, formTextFieldsSpec, appendPart_eq, Option.map_id,
    List.append_assoc]

theorem filter_isText_optText (name : String) (v : Option String) :
    (optText name v).filter Part.isText = optText name v := by
  cases v <;> rfl

theorem filter_isFile_optText (name : String) (v : Option String) :
    (optText name v).filter Part.isFile = [] := by
  cases v <;> rfl

theorem filter_isText_spec (r : Request) :
    (formTextFieldsSpec r).filter Part.isText = formTextFieldsSpec r := by
  simp [formTextFieldsSpec, List.filter_append, filter_isText_optText,
    List.filter, Part.isText]

theorem filter_isFile_spec (r : Request) :
    (formTextFieldsSpec r).filter Part.isFile = [] := by
  simp [formTextFieldsSpec, List.filter_append, filter_isFile_optText,
    List.filter, Part.isFile]

/-- C1: whenever `send` succeeds in building its multipart form, the text
fields of that form are exactly the three required fields `token`, `user`,
`message` followed by, for each optional field that is set, exactly one text
field with its wire name and wire-encoded value; unset optional fields
contribute no field.  In particular a notification with only required fields
yields exactly those three text fields. -/
theorem claim_C1 (mimeStr : String → Except String Unit) (n : Notification)
    (f : Form) (h : buildForm mimeStr n = Except.ok f) :
    f.filter Part.isText = formTextFieldsSpec n.request := by
  cases hatt : n.attachment with
  | none =>
    simp [buildForm, hatt] at h
    rw [← h, formTextParts_eq_spec]
    exact filter_isText_spec n.request
  | some a =>
    cases hm : mimeStr a.mime_type with
    | error d => simp [buildForm, hatt, hm] at h
    | ok u =>
      simp [buildForm, hatt, hm] at h
      rw [← h, List.filter_append, formTextParts_eq_spec, filter_isText_spec]
      simp [List.filter, Part.isText]

/-- C1 witness: a notification with only the required fields set builds a
form whose text fields are exactly the three required ones. -/
theorem claim_C1_witness :
    List.filter Part.isText
        [Part.text "token" "t", Part.text "user" "u", Part.text "message" "m"]
      = formTextFieldsSpec (Notification.new "t" "u" "m").request :=
  claim_C1 (fun _ => Except.ok ()) (Notification.new "t" "u" "m")
    [Part.text "token" "t", Part.text "user" "u", Part.text "message" "m"]
    (by rfl)

/-- C2: the wire encodings are total functions on the enumerations and match
the tables of spec section 3: `HTML`/`Monospace` map disabled to "0" and
enabled to "1"; `Priority` maps Lowest to "-2", Low to "-1", Normal to "0",
High to "1", Emergency to "2"; every `Sound` value maps to the lowercase of
its Rust variant name with no separators. -/
theorem claim_C2 :
    (HTML.toString HTML.none = "0" ∧ HTML.toString HTML.enabled = "1")
    ∧ (Monospace.toString Monospace.none = "0"
        ∧ Monospace.toString Monospace.enabled = "1")
    ∧ (Priority.toString Priority.lowest = "-2"
        ∧ Priority.toString Priority.low = "-1"
        ∧ Priority.toString Priority.normal = "0"
        ∧ Priority.toString Priority.high = "1"
        ∧ Priority.toString Priority.emergency = "2")
    ∧ (∀ s : Sound,
        (Sound.toString s).data = (Sound.rustName s).data.map Char.toLower) := by
  refine ⟨by decide, by decide, by decide, ?_⟩
  intro s
  cases s <;> decide

/-- C6 counterexample: the `Sound` enumeration does not have 22 values — it
has 23 (the 22 sounds of the Pushover list plus the silent `None`
variant). -/
theorem claim_C6_counterexample : ¬ (Fintype.card Sound = 22) := by decide

/-- C6 (amended): the `Sound` enumeration has exactly 23 named values, and
the wire value of each is the lowercase of its Rust variant name with no
separators. -/
theorem claim_C6 :
    Fintype.card Sound = 23
    ∧ ∀ s : Sound,
        (Sound.toString s).data = (Sound.rustName s).data.map Char.toLower := by
  constructor
  · decide
  · intro s
    cases s <;> decide

/-- C7: attaching twice is last-write-wins — after two `attach` calls only
the second attachment is held, and a successful form build emits exactly one
file part, named `attachment` and carrying the second attachment's filename,
MIME type and content. -/
theorem claim_C7 (n : Notification) (a1 a2 : Attachment)
    (mimeStr : String → Except String Unit) (f : Form)
    (h : buildForm mimeStr ((n.attach a1).attach a2) = Except.ok f) :
    ((n.attach a1).attach a2).attachment = some a2
    ∧ f.filter Part.isFile
        = [Part.file "attachment" a2.filename a2.mime_type a2.content] := by
  refine ⟨rfl, ?_⟩
  cases hm : mimeStr a2.mime_type with
  | error d => simp [buildForm, Notification.attach, hm] at h
  | ok u =>
    simp [buildForm, Notification.attach, hm] at h
    rw [← h, List.filter_append, formTextParts_eq_spec, filter_isFile_spec]
    simp [List.filter, Part.isFile]

/-- C7 witness: attaching a plain-text attachment and then a PNG attachment
to a fresh notification keeps only the PNG one, and the built form carries
exactly that file part. -/
theorem claim_C7_witness :
    (((Notification.new "t" "u" "m").attach
          (Attachment.new "a.txt" "text/plain" [])).attach
        (Attachment.new "b.png" "image/png" pngSigBytes)).attachment
      = some (Attachment.new "b.png" "image/png" pngSigBytes)
    ∧ List.filter Part.isFile
        [Part.text "token" "t", Part.text "user" "u", Part.text "message" "m",
          Part.file "attachment" "b.png" "image/png" pngSigBytes]
      = [Part.file "attachment" "b.png" "image/png" pngSigBytes] :=
  claim_C7 (Notification.new "t" "u" "m")
    (Attachment.new "a.txt" "text/plain" [])
    (Attachment.new "b.png" "image/png" pngSigBytes)
    (fun _ => Except.ok ())
    [Part.text "token" "t", Part.text "user" "u", Part.text "message" "m",
      Part.file "attachment" "b.png" "image/png" pngSigBytes]
    (by rfl)

/-- C10: `send` takes the notification by shared reference.  In the
state-passing embedding `sendSt` this reads as: whatever the oracles do and
whether the call succeeds or fails, the notification comes back unchanged,
the form built from it afterwards is identical, and sending again gives the
identical outcome. -/
theorem claim_C10 (mimeStr : String → Except String Unit)
    (post : Form → Except String String)
    (parse : String → Except String Response) (n : Notification) :
    (sendSt mimeStr post parse n).2 = n
    ∧ buildForm mimeStr (sendSt mimeStr post parse n).2 = buildForm mimeStr n
    ∧ sendSt mimeStr post parse (sendSt mimeStr post parse n).2
        = sendSt mimeStr post parse n := by
  have h2 : (sendSt mimeStr post parse n).2 = n := by
    cases hb : buildForm mimeStr n with
    | error e => simp [sendSt, hb]
    | ok form =>
      cases hp : post form with
      | error d => simp [sendSt, hb, hp]
      | ok body =>
        cases hq : parse body with
        | error d => simp [sendSt, hb, hp, hq]
        | ok r => simp [sendSt, hb, hp, hq]
  exact ⟨h2, by rw [h2], by rw [h2]⟩

/-- C8: whenever the transport yields a body that the JSON parser rejects,
`send` fails with the `Deserialize` variant carrying that parse diagnostic,
and no `Response` value is produced. -/
theorem claim_C8 (mimeStr : String → Except String Unit)
    (post : Form → Except String String)
    (parse : String → Except String Response)
    (n : Notification) (f : Form) (body d : String)
    (hb : buildForm mimeStr n = Except.ok f)
    (hp : post f = Except.ok body)
    (hj : parse body = Except.error d) :
    send mimeStr post parse n = Except.error (NotificationError.deserialize d)
    ∧ ∀ r : Response, send mimeStr post parse n ≠ Except.ok r := by
  have h : send mimeStr post parse n
      = Except.error (NotificationError.deserialize d) := by
    simp [send, hb, hp, hj]
  exact ⟨h, fun r hr => by rw [h] at hr; exact Except.noConfusion hr⟩

/-- C8 witness: a mocked endpoint returning a malformed body makes `send`
fail with the `Deserialize` variant carrying the parse diagnostic. -/
theorem claim_C8_witness :
    send mimeOkAll (postOk "not json") (parseFail "expected value at line 1")
        (Notification.new "t" "u" "m")
      = Except.error (NotificationError.deserialize "expected value at line 1") :=
  (claim_C8 mimeOkAll (postOk "not json") (parseFail "expected value at line 1")
    (Notification.new "t" "u" "m")
    [Part.text "token" "t", Part.text "user" "u", Part.text "message" "m"]
    "not json" "expected value at line 1" (by rfl) (by rfl) (by rfl)).1

/-- C3 counterexample: on a URL whose path ends in a slash (parsed path
segments `["a", ""]`, e.g. `https://example.com/a/`), the claim requires the
fallback filename `"filename"`, but `from_url` uses the last segment even
when it is empty: the produced attachment's filename is `""`. -/
theorem claim_C3_counterexample :
    from_url (constParse { pathSegments := some ["a", ""] })
        (constGet { status := 200, body := pngSigBytes }) inferPng
        "https://example.com/a/"
      = Except.ok (Attachment.new "" "image/png" pngSigBytes)
    ∧ ("" : String) ≠ "filename" := by
  exact ⟨rfl, by decide⟩

/-- C3 (amended): for every URL accepted by `from_url`, the attachment's
filename is the last path segment whenever the parsed URL has a (nonempty
list of) path segments — including an empty-string last segment, which is
used as-is; the literal `"filename"` is produced exactly when
`path_segments()` yields nothing (cannot-be-a-base URLs, or an empty segment
list in the model). -/
theorem claim_C3 (parseUrl : String → Except String ParsedUrl)
    (get : String → Except String HttpResponse)
    (inferGet : List Nat → Option String) (url : String) (parsed : ParsedUrl)
    (a : Attachment) (hp : parseUrl url = Except.ok parsed)
    (ha : from_url parseUrl get inferGet url = Except.ok a) :
    (∀ l s, parsed.pathSegments = some l → l.getLast? = some s →
        a.filename = s)
    ∧ (parsed.pathSegments = Option.none → a.filename = "filename")
    ∧ (parsed.pathSegments = some [] → a.filename = "filename") := by
  have hfn : a.filename = fromUrlFilename parsed.pathSegments := by
    cases hg : get url with
    | error d => simp [from_url, hp, hg] at ha
    | ok res =>
      cases hi : inferGet res.body with
      | none => simp [from_url, hp, hg, hi] at ha
      | some m =>
        simp [from_url, hp, hg, hi] at ha
        rw [← ha]
  refine ⟨?_, ?_, ?_⟩
  · intro l s hl hs
    rw [hfn, hl]
    simp [fromUrlFilename, hs]
  · intro h0
    rw [hfn, h0]
    rfl
  · intro h0
    rw [hfn, h0]
    rfl

/-- C3 witness: fetching `https://example.com/a/b/filename.png` (parsed path
segments `["a", "b", "filename.png"]`) yields the filename
`"filename.png"`. -/
theorem claim_C3_witness :
    (Attachment.new "filename.png" "image/png" pngSigBytes).filename
      = "filename.png" :=
  (claim_C3 (constParse { pathSegments := some ["a", "b", "filename.png"] })
      (constGet { status := 200, body := pngSigBytes }) inferPng
      "https://example.com/a/b/filename.png"
      { pathSegments := some ["a", "b", "filename.png"] }
      (Attachment.new "filename.png" "image/png" pngSigBytes)
      (by rfl) (by rfl)).1
    ["a", "b", "filename.png"] "filename.png" rfl (by rfl)

/-- C4 counterexample: `from_url` never inspects the HTTP status.  A GET that
completes with the non-success status 404 and a PNG-signature body does not
fail with a network error — it produces an attachment, contradicting the
claim that no Attachment value is produced for a non-success-status
fetch. -/
theorem claim_C4_counterexample :
    from_url (constParse { pathSegments := some ["filename.png"] })
        (constGet { status := 404, body := pngSigBytes }) inferPng
        "https://example.com/filename.png"
      = Except.ok (Attachment.new "filename.png" "image/png" pngSigBytes) := by
  rfl

/-- C4 (amended): `from_url` fails with the `Reqwest` (network) variant
exactly when the GET or the body read fails at the transport level, carrying
that diagnostic; the HTTP status code is never inspected, so the outcome
depends only on the response body, never on the status. -/
theorem claim_C4 (parseUrl : String → Except String ParsedUrl)
    (get : String → Except String HttpResponse)
    (inferGet : List Nat → Option String) (url : String) (parsed : ParsedUrl)
    (d : String) (hp : parseUrl url = Except.ok parsed)
    (hg : get url = Except.error d) :
    from_url parseUrl get inferGet url
      = Except.error (AttachmentError.reqwest d)
    ∧ ∀ s1 s2 body,
        from_url parseUrl (constGet { status := s1, body := body }) inferGet url
          = from_url parseUrl (constGet { status := s2, body := body }) inferGet
              url := by
  constructor
  · simp [from_url, hp, hg]
  · intro s1 s2 body
    simp [from_url, hp, constGet]

/-- C4 witness: a transport failure of the GET surfaces as the `Reqwest`
variant carrying the transport diagnostic. -/
theorem claim_C4_witness :
    from_url (constParse { pathSegments := some ["x.png"] })
        (failGet "connection refused") inferPng "https://example.com/x.png"
      = Except.error (AttachmentError.reqwest "connection refused") :=
  (claim_C4 (constParse { pathSegments := some ["x.png"] })
    (failGet "connection refused") inferPng "https://example.com/x.png"
    { pathSegments := some ["x.png"] } "connection refused"
    (by rfl) (by rfl)).1

/-- C5 counterexample: with an attachment whose MIME string `"notamime"` the
MIME parser rejects, the form build fails — but with the `Reqwest` variant
(the `?` on `mime_str` converts through `From<reqwest::Error>`), not the
`Attachment` variant the claim requires. -/
theorem claim_C5_counterexample :
    buildForm mimeStrSlash
        ((Notification.new "t" "u" "m").attach (Attachment.new "f" "notamime" []))
      = Except.error (NotificationError.reqwest "notamime")
    ∧ resultIsAttachmentError
        (buildForm mimeStrSlash
          ((Notification.new "t" "u" "m").attach
            (Attachment.new "f" "notamime" [])))
      = false := by
  exact ⟨rfl, rfl⟩

/-- C5 (amended): when the attachment's MIME string is rejected by the MIME
parser, `send` fails while constructing the file part, and the failure is
surfaced as the `Reqwest` variant of `NotificationError` — not as the
`Attachment` variant. -/
theorem claim_C5 (mimeStr : String → Except String Unit)
    (post : Form → Except String String)
    (parse : String → Except String Response)
    (n : Notification) (a : Attachment) (d : String)
    (ha : n.attachment = some a) (hm : mimeStr a.mime_type = Except.error d) :
    send mimeStr post parse n = Except.error (NotificationError.reqwest d)
    ∧ (NotificationError.reqwest d).isAttachment = false := by
  refine ⟨?_, rfl⟩
  simp [send, buildForm, ha, hm]

/-- C5 witness: sending a notification whose attachment carries the invalid
MIME string `"notamime"` fails with the `Reqwest` variant carrying that
diagnostic. -/
theorem claim_C5_witness :
    send mimeStrSlash (postOk "") (parseFail "x")
        ((Notification.new "t" "u" "m").attach (Attachment.new "f" "notamime" []))
      = Except.error (NotificationError.reqwest "notamime") :=
  (claim_C5 mimeStrSlash (postOk "") (parseFail "x")
    ((Notification.new "t" "u" "m").attach (Attachment.new "f" "notamime" []))
    (Attachment.new "f" "notamime" []) "notamime" (by rfl) (by rfl)).1

/-- C9: evaluation at the failing input.  The CLI model applied to an
invocation that passes only the monospace toggle (no HTML toggle) produces a
notification identical to a freshly built one — in particular its
`monospace` field is unset, although the claim (and the flag's own help
text) says the toggle sets it.  The `main.rs` source only applies the
monospace flag inside the `if opts.html` block. -/
theorem claim_C9_bug :
    mainBuild resolveFail optsMonoOnly = Except.ok (Notification.new "t" "u" "m")
    ∧ (Notification.new "t" "u" "m").request.monospace = Option.none := by
  exact ⟨rfl, rfl⟩

end Polonium
